import Mathlib

/-!
Verification development for the stock trend analysis engine
(`src/stock_analyzer.py`).  The Python code is shallowly embedded:
pure numeric pipelines become Lean functions over `ℚ` lists, the
enumerations become inductive types, and Python's banker's rounding
(`round`) is modelled exactly by `pyRound`.
-/

set_option maxRecDepth 10000

/-- The `TrendStatus` enum from the source. -/
inductive TrendStatus
  | STRONG_BULL
  | BULL
  | WEAK_BULL
  | CONSOLIDATION
  | WEAK_BEAR
  | BEAR
  | STRONG_BEAR
  deriving DecidableEq, Repr

/-- The `VolumeStatus` enum from the source. -/
inductive VolumeStatus
  | HEAVY_VOLUME_UP
  | HEAVY_VOLUME_DOWN
  | SHRINK_VOLUME_UP
  | SHRINK_VOLUME_DOWN
  | NORMAL
  deriving DecidableEq, Repr

/-- The `BuySignal` enum from the source. -/
inductive BuySignal
  | STRONG_BUY
  | BUY
  | HOLD
  | WAIT
  | SELL
  | STRONG_SELL
  deriving DecidableEq, Repr

/-- The `MACDStatus` enum from the source. -/
inductive MACDStatus
  | GOLDEN_CROSS_ZERO
  | GOLDEN_CROSS
  | BULLISH
  | CROSSING_UP
  | CROSSING_DOWN
  | BEARISH
  | DEATH_CROSS
  deriving DecidableEq, Repr

/-- The `RSIStatus` enum from the source. -/
inductive RSIStatus
  | OVERBOUGHT
  | STRONG_BUY
  | NEUTRAL
  | WEAK
  | OVERSOLD
  deriving DecidableEq, Repr

/-- The `KDJStatus` enum from the source. -/
inductive KDJStatus
  | GOLDEN_CROSS
  | DEATH_CROSS
  | OVERBOUGHT
  | OVERSOLD
  | BULLISH
  | BEARISH
  | NEUTRAL
  deriving DecidableEq, Repr

/-- The `BOLLStatus` enum from the source. -/
inductive BOLLStatus
  | UPPER_BREAK
  | LOWER_BREAK
  | UPPER_NEAR
  | LOWER_NEAR
  | MID_SUPPORT
  | MID_RESISTANCE
  | NORMAL
  deriving DecidableEq, Repr

/-- Python's built-in `round` on an exact rational value: round half to
even (banker's rounding), as used by `_generate_signal` for the rescaled
sub-scores. -/
def pyRound (q : ℚ) : ℤ :=
  if q - (q.floor : ℚ) < 1/2 then q.floor
  else if 1/2 < q - (q.floor : ℚ) then q.floor + 1
  else if q.floor % 2 = 0 then q.floor else q.floor + 1

lemma ratFloor_eq_intFloor (q : ℚ) : q.floor = ⌊q⌋ := by
  rw [Rat.floor_def', ← Rat.floor_def]

lemma pyRound_intCast (m : ℤ) : pyRound (m : ℚ) = m := by
  simp [pyRound, ratFloor_eq_intFloor]

lemma pyRound_eq_of_eq_intCast {q : ℚ} {m : ℤ} (h : q = (m : ℚ)) :
    pyRound q = m := by rw [h, pyRound_intCast]

lemma pyRound_nonneg (q : ℚ) (h : 0 ≤ q) : 0 ≤ pyRound q := by
  have h0 : (0 : ℤ) ≤ ⌊q⌋ := Int.floor_nonneg.mpr h
  unfold pyRound
  rw [ratFloor_eq_intFloor]
  split_ifs <;> omega

lemma pyRound_le_int (q : ℚ) (m : ℤ) (h : q ≤ (m : ℚ)) : pyRound q ≤ m := by
  have h1 : ⌊q⌋ ≤ m := by
    have := Int.floor_le_floor h
    simpa using this
  have hfl : ((⌊q⌋ : ℤ) : ℚ) ≤ q := Int.floor_le q
  unfold pyRound
  rw [ratFloor_eq_intFloor]
  split_ifs with hc1 hc2 hc3
  · exact h1
  · have hlt : ((⌊q⌋ : ℤ) : ℚ) < (m : ℚ) := by linarith
    have : ⌊q⌋ < m := by exact_mod_cast hlt
    omega
  · exact h1
  · have hge : (1 : ℚ)/2 ≤ q - ⌊q⌋ := by linarith
    have hlt : ((⌊q⌋ : ℤ) : ℚ) < (m : ℚ) := by linarith
    have : ⌊q⌋ < m := by exact_mod_cast hlt
    omega

/-- The `trend_scores` dict in `_generate_signal` (total over the enum). -/
def trendScores : TrendStatus → ℤ
  | .STRONG_BULL => 28
  | .BULL => 24
  | .WEAK_BULL => 16
  | .CONSOLIDATION => 10
  | .WEAK_BEAR => 6
  | .BEAR => 3
  | .STRONG_BEAR => 0

/-- Fallback of `trend_scores.get(_, 12)` (unreachable: dict is total). -/
def trendGetDefault : ℤ := 12

/-- The `volume_scores` dict in `_generate_signal`. -/
def volumeScores : VolumeStatus → ℤ
  | .SHRINK_VOLUME_DOWN => 12
  | .HEAVY_VOLUME_UP => 10
  | .NORMAL => 8
  | .SHRINK_VOLUME_UP => 5
  | .HEAVY_VOLUME_DOWN => 0

/-- Fallback of `volume_scores.get(_, 8)` (unreachable: dict is total). -/
def volumeGetDefault : ℤ := 8

/-- The `macd_scores` dict in `_generate_signal`. -/
def macdScores : MACDStatus → ℤ
  | .GOLDEN_CROSS_ZERO => 12
  | .GOLDEN_CROSS => 10
  | .CROSSING_UP => 8
  | .BULLISH => 6
  | .BEARISH => 1
  | .CROSSING_DOWN => 0
  | .DEATH_CROSS => 0

/-- Fallback of `macd_scores.get(_, 5)` (unreachable: dict is total). -/
def macdGetDefault : ℤ := 5

/-- The `rsi_scores` dict in `_generate_signal`. -/
def rsiScores : RSIStatus → ℤ
  | .OVERSOLD => 7
  | .STRONG_BUY => 6
  | .NEUTRAL => 4
  | .WEAK => 2
  | .OVERBOUGHT => 0

/-- Fallback of `rsi_scores.get(_, 4)` (unreachable: dict is total). -/
def rsiGetDefault : ℤ := 4

/-- The `kdj_scores` dict in `_generate_signal`. -/
def kdjScores : KDJStatus → ℤ
  | .GOLDEN_CROSS => 8
  | .OVERSOLD => 7
  | .BULLISH => 5
  | .NEUTRAL => 3
  | .BEARISH => 1
  | .DEATH_CROSS => 0
  | .OVERBOUGHT => 0

/-- The `boll_scores` dict in `_generate_signal`. -/
def bollScores : BOLLStatus → ℤ
  | .LOWER_BREAK => 7
  | .LOWER_NEAR => 6
  | .MID_SUPPORT => 5
  | .NORMAL => 4
  | .UPPER_NEAR => 2
  | .MID_RESISTANCE => 1
  | .UPPER_BREAK => 1

/-- Bias sub-score branch chain from `_generate_signal`
(`BIAS_THRESHOLD = 5.0`). -/
def biasRaw (bias : ℚ) : ℤ :=
  if bias < 0 then
    if -3 < bias then 18
    else if -5 < bias then 14
    else 8
  else if bias < 2 then 16
  else if bias < 5 then 12
  else 3

/-- Support sub-score from `_generate_signal`:
`(4 if support_ma5 else 0) + (4 if support_ma10 else 0)`. -/
def supportRaw (s5 s10 : Bool) : ℤ :=
  (if s5 then 4 else 0) + (if s10 then 4 else 0)

/-- The `StockTrendAnalyzer.DEFAULT_WEIGHTS`. -/
def DEFAULT_WEIGHTS : List ℤ := [28, 18, 12, 8, 12, 7, 8, 7]

/-- Weight validation in `StockTrendAnalyzer.__init__`: keep a supplied
vector only if it has length 8 and sums to 100; otherwise (and when no
vector is supplied) fall back to `DEFAULT_WEIGHTS`. -/
def selectWeights (raw : Option (List ℤ)) : List ℤ :=
  match raw with
  | none => DEFAULT_WEIGHTS
  | some l => if l.length ≠ 8 ∨ l.sum ≠ 100 then DEFAULT_WEIGHTS else l

/-- The fields of `TrendAnalysisResult` that `_generate_signal` reads. -/
structure SignalInput where
  trend_status : TrendStatus
  bias_ma5 : ℚ
  volume_status : VolumeStatus
  support_ma5 : Bool
  support_ma10 : Bool
  macd_status : MACDStatus
  rsi_status : RSIStatus
  kdj_status : KDJStatus
  boll_status : BOLLStatus
  deriving DecidableEq, Repr

/-- One rescaled sub-score: `round(raw * w[i] / d[i]) if d[i] else 0`. -/
def scaledScore (raw wi di : ℤ) : ℤ :=
  if di = 0 then 0 else pyRound ((raw : ℚ) * (wi : ℚ) / (di : ℚ))

lemma scaledScore_eq (raw wi di v : ℤ) (h1 : di ≠ 0)
    (h2 : (raw : ℚ) * (wi : ℚ) / (di : ℚ) = (v : ℚ)) :
    scaledScore raw wi di = v := by
  simp only [scaledScore, if_neg h1]
  exact pyRound_eq_of_eq_intCast h2

/-- The composite score computed by `_generate_signal`: the sum of the
eight rescaled sub-scores (weights indexed 0..7, defaults from
`DEFAULT_WEIGHTS`). -/
def signalScore (s : SignalInput) (w : List ℤ) : ℤ :=
  scaledScore (trendScores s.trend_status) (w.getD 0 0) (DEFAULT_WEIGHTS.getD 0 0)
  + scaledScore (biasRaw s.bias_ma5) (w.getD 1 0) (DEFAULT_WEIGHTS.getD 1 0)
  + scaledScore (volumeScores s.volume_status) (w.getD 2 0) (DEFAULT_WEIGHTS.getD 2 0)
  + scaledScore (supportRaw s.support_ma5 s.support_ma10) (w.getD 3 0) (DEFAULT_WEIGHTS.getD 3 0)
  + scaledScore (macdScores s.macd_status) (w.getD 4 0) (DEFAULT_WEIGHTS.getD 4 0)
  + scaledScore (rsiScores s.rsi_status) (w.getD 5 0) (DEFAULT_WEIGHTS.getD 5 0)
  + scaledScore (kdjScores s.kdj_status) (w.getD 6 0) (DEFAULT_WEIGHTS.getD 6 0)
  + scaledScore (bollScores s.boll_status) (w.getD 7 0) (DEFAULT_WEIGHTS.getD 7 0)

/-- Final `buy_signal` cascade at the end of `_generate_signal`. -/
def buySignalOf (score : ℤ) (t : TrendStatus) : BuySignal :=
  if 75 ≤ score ∧ (t = .STRONG_BULL ∨ t = .BULL) then .STRONG_BUY
  else if 60 ≤ score ∧ (t = .STRONG_BULL ∨ t = .BULL ∨ t = .WEAK_BULL) then .BUY
  else if 45 ≤ score then .HOLD
  else if 30 ≤ score then .WAIT
  else if t = .BEAR ∨ t = .STRONG_BEAR then .STRONG_SELL
  else .SELL

/-- The `_generate_signal` as a whole: composite score plus recommendation. -/
def generateSignal (s : SignalInput) (w : List ℤ) : ℤ × BuySignal :=
  (signalScore s w, buySignalOf (signalScore s w) s.trend_status)

/-- The recommendation rule as worded in the specification (top-down:
score≥75 with a strong-bull/bull trend gives strong-buy; else score≥60
with any bull grade gives buy; else score≥45 hold; else score≥30 wait;
else bear/strong-bear gives strong-sell; else sell). -/
def specRecommendation (score : ℤ) (t : TrendStatus) : BuySignal :=
  if 75 ≤ score ∧ (t = .STRONG_BULL ∨ t = .BULL) then .STRONG_BUY
  else if 60 ≤ score ∧ (t = .STRONG_BULL ∨ t = .BULL ∨ t = .WEAK_BULL) then .BUY
  else if 45 ≤ score then .HOLD
  else if 30 ≤ score then .WAIT
  else if t = .BEAR ∨ t = .STRONG_BEAR then .STRONG_SELL
  else .SELL

/-- Each rescaled sub-score lies between `0` and the supplied weight,
provided the raw score is between `0` and the default weight. -/
lemma scaledScore_bounds (raw wi di : ℤ) (h0 : 0 ≤ raw) (h1 : raw ≤ di)
    (hw : 0 ≤ wi) : 0 ≤ scaledScore raw wi di ∧ scaledScore raw wi di ≤ wi := by
  unfold scaledScore
  split_ifs with hdi
  · exact ⟨le_refl 0, hw⟩
  · have hdpos : (0 : ℤ) < di := lt_of_le_of_ne (le_trans h0 h1) (Ne.symm hdi)
    have hdposQ : (0 : ℚ) < (di : ℚ) := by exact_mod_cast hdpos
    have hq0 : (0 : ℚ) ≤ (raw : ℚ) * (wi : ℚ) / (di : ℚ) := by
      apply div_nonneg _ (le_of_lt hdposQ)
      have hr : (0 : ℚ) ≤ (raw : ℚ) := by exact_mod_cast h0
      have hwq : (0 : ℚ) ≤ (wi : ℚ) := by exact_mod_cast hw
      exact mul_nonneg hr hwq
    have hqle : (raw : ℚ) * (wi : ℚ) / (di : ℚ) ≤ (wi : ℚ) := by
      rw [div_le_iff₀ hdposQ]
      have hr : (raw : ℚ) ≤ (di : ℚ) := by exact_mod_cast h1
      have hwq : (0 : ℚ) ≤ (wi : ℚ) := by exact_mod_cast hw
      calc (raw : ℚ) * (wi : ℚ) ≤ (di : ℚ) * (wi : ℚ) :=
            mul_le_mul_of_nonneg_right hr hwq
        _ = (wi : ℚ) * (di : ℚ) := by ring
    exact ⟨pyRound_nonneg _ hq0, pyRound_le_int _ _ hqle⟩

lemma trendScores_bounds (t : TrendStatus) :
    0 ≤ trendScores t ∧ trendScores t ≤ 28 := by cases t <;> decide

lemma biasRaw_bounds (b : ℚ) : 0 ≤ biasRaw b ∧ biasRaw b ≤ 18 := by
  unfold biasRaw
  split_ifs <;> decide

lemma volumeScores_bounds (v : VolumeStatus) :
    0 ≤ volumeScores v ∧ volumeScores v ≤ 12 := by cases v <;> decide

lemma supportRaw_bounds (a b : Bool) :
    0 ≤ supportRaw a b ∧ supportRaw a b ≤ 8 := by cases a <;> cases b <;> decide

lemma macdScores_bounds (m : MACDStatus) :
    0 ≤ macdScores m ∧ macdScores m ≤ 12 := by cases m <;> decide

lemma rsiScores_bounds (r : RSIStatus) :
    0 ≤ rsiScores r ∧ rsiScores r ≤ 7 := by cases r <;> decide

lemma kdjScores_bounds (k : KDJStatus) :
    0 ≤ kdjScores k ∧ kdjScores k ≤ 8 := by cases k <;> decide

lemma bollScores_bounds (b : BOLLStatus) :
    0 ≤ bollScores b ∧ bollScores b ≤ 7 := by cases b <;> decide

/-- C1: for every analysis state and every valid weight vector (8
non-negative entries summing to 100), the composite signal score
produced by `_generate_signal` lies in [0, 100]. -/
theorem claim_C1_score_in_range (s : SignalInput) (w : List ℤ)
    (hlen : w.length = 8) (hpos : ∀ x ∈ w, 0 ≤ x) (hsum : w.sum = 100) :
    0 ≤ (generateSignal s w).1 ∧ (generateSignal s w).1 ≤ 100 := by
  match w, hlen with
  | [w0, w1, w2, w3, w4, w5, w6, w7], _ =>
    have hw0 : 0 ≤ w0 := hpos w0 (by simp)
    have hw1 : 0 ≤ w1 := hpos w1 (by simp)
    have hw2 : 0 ≤ w2 := hpos w2 (by simp)
    have hw3 : 0 ≤ w3 := hpos w3 (by simp)
    have hw4 : 0 ≤ w4 := hpos w4 (by simp)
    have hw5 : 0 ≤ w5 := hpos w5 (by simp)
    have hw6 : 0 ≤ w6 := hpos w6 (by simp)
    have hw7 : 0 ≤ w7 := hpos w7 (by simp)
    have hs : w0 + w1 + w2 + w3 + w4 + w5 + w6 + w7 = 100 := by
      simpa [add_assoc] using hsum
    have B0 := scaledScore_bounds (trendScores s.trend_status) w0 28
      (trendScores_bounds s.trend_status).1 (trendScores_bounds s.trend_status).2 hw0
    have B1 := scaledScore_bounds (biasRaw s.bias_ma5) w1 18
      (biasRaw_bounds s.bias_ma5).1 (biasRaw_bounds s.bias_ma5).2 hw1
    have B2 := scaledScore_bounds (volumeScores s.volume_status) w2 12
      (volumeScores_bounds s.volume_status).1 (volumeScores_bounds s.volume_status).2 hw2
    have B3 := scaledScore_bounds (supportRaw s.support_ma5 s.support_ma10) w3 8
      (supportRaw_bounds s.support_ma5 s.support_ma10).1
      (supportRaw_bounds s.support_ma5 s.support_ma10).2 hw3
    have B4 := scaledScore_bounds (macdScores s.macd_status) w4 12
      (macdScores_bounds s.macd_status).1 (macdScores_bounds s.macd_status).2 hw4
    have B5 := scaledScore_bounds (rsiScores s.rsi_status) w5 7
      (rsiScores_bounds s.rsi_status).1 (rsiScores_bounds s.rsi_status).2 hw5
    have B6 := scaledScore_bounds (kdjScores s.kdj_status) w6 8
      (kdjScores_bounds s.kdj_status).1 (kdjScores_bounds s.kdj_status).2 hw6
    have B7 := scaledScore_bounds (bollScores s.boll_status) w7 7
      (bollScores_bounds s.boll_status).1 (bollScores_bounds s.boll_status).2 hw7
    have hval : (generateSignal s [w0, w1, w2, w3, w4, w5, w6, w7]).1 =
        scaledScore (trendScores s.trend_status) w0 28
        + scaledScore (biasRaw s.bias_ma5) w1 18
        + scaledScore (volumeScores s.volume_status) w2 12
        + scaledScore (supportRaw s.support_ma5 s.support_ma10) w3 8
        + scaledScore (macdScores s.macd_status) w4 12
        + scaledScore (rsiScores s.rsi_status) w5 7
        + scaledScore (kdjScores s.kdj_status) w6 8
        + scaledScore (bollScores s.boll_status) w7 7 := rfl
    rw [hval]
    constructor
    · linarith [B0.1, B1.1, B2.1, B3.1, B4.1, B5.1, B6.1, B7.1]
    · linarith [B0.2, B1.2, B2.2, B3.2, B4.2, B5.2, B6.2, B7.2]

/-- A neutral concrete analysis state, used to instantiate theorems. -/
def sampleState : SignalInput :=
  { trend_status := .CONSOLIDATION
    bias_ma5 := 1
    volume_status := .NORMAL
    support_ma5 := false
    support_ma10 := false
    macd_status := .BULLISH
    rsi_status := .NEUTRAL
    kdj_status := .NEUTRAL
    boll_status := .NORMAL }

theorem claim_C1_score_in_range_witness :
    0 ≤ (generateSignal sampleState DEFAULT_WEIGHTS).1 ∧
      (generateSignal sampleState DEFAULT_WEIGHTS).1 ≤ 100 :=
  claim_C1_score_in_range sampleState DEFAULT_WEIGHTS (by decide)
    (by decide) (by decide)

/-- C2: the final recommendation is exactly the spec's top-down rule
applied to the computed composite score and the trend label. -/
theorem claim_C2_recommendation_rule (s : SignalInput) (w : List ℤ) :
    (generateSignal s w).2 = specRecommendation (generateSignal s w).1 s.trend_status :=
  rfl

/-- An extreme analysis state: every classifier at its most bearish
label except the Bollinger one; used to separate weight vectors. -/
def bearishBollState : SignalInput :=
  { trend_status := .STRONG_BEAR
    bias_ma5 := 6
    volume_status := .HEAVY_VOLUME_DOWN
    support_ma5 := false
    support_ma10 := false
    macd_status := .DEATH_CROSS
    rsi_status := .OVERBOUGHT
    kdj_status := .DEATH_CROSS
    boll_status := .LOWER_BREAK }

lemma signalScore_bearishBoll_neg :
    signalScore bearishBollState [-100, 0, 0, 0, 0, 0, 0, 200] = 200 := by
  have e0 : scaledScore 0 (-100) 28 = 0 := scaledScore_eq _ _ _ 0 (by decide) (by push_cast; norm_num)
  have e1 : scaledScore 3 0 18 = 0 := scaledScore_eq _ _ _ 0 (by decide) (by push_cast; norm_num)
  have e2 : scaledScore 0 0 12 = 0 := scaledScore_eq _ _ _ 0 (by decide) (by push_cast; norm_num)
  have e3 : scaledScore 0 0 8 = 0 := scaledScore_eq _ _ _ 0 (by decide) (by push_cast; norm_num)
  have e5 : scaledScore 0 0 7 = 0 := scaledScore_eq _ _ _ 0 (by decide) (by push_cast; norm_num)
  have e6 : scaledScore 0 0 8 = 0 := scaledScore_eq _ _ _ 0 (by decide) (by push_cast; norm_num)
  have e7 : scaledScore 7 200 7 = 200 := scaledScore_eq _ _ _ 200 (by decide) (by push_cast; norm_num)
  have hval : signalScore bearishBollState [-100, 0, 0, 0, 0, 0, 0, 200] =
      scaledScore 0 (-100) 28 + scaledScore 3 0 18 + scaledScore 0 0 12
      + scaledScore 0 0 8 + scaledScore 0 0 12 + scaledScore 0 0 7
      + scaledScore 0 0 8 + scaledScore 7 200 7 := rfl
  rw [hval, e0, e1, e2, e3, e5, e7]
  omega

lemma signalScore_bearishBoll_default :
    signalScore bearishBollState DEFAULT_WEIGHTS = 10 := by
  have e0 : scaledScore 0 28 28 = 0 := scaledScore_eq _ _ _ 0 (by decide) (by push_cast; norm_num)
  have e1 : scaledScore 3 18 18 = 3 := scaledScore_eq _ _ _ 3 (by decide) (by push_cast; norm_num)
  have e2 : scaledScore 0 12 12 = 0 := scaledScore_eq _ _ _ 0 (by decide) (by push_cast; norm_num)
  have e3 : scaledScore 0 8 8 = 0 := scaledScore_eq _ _ _ 0 (by decide) (by push_cast; norm_num)
  have e5 : scaledScore 0 7 7 = 0 := scaledScore_eq _ _ _ 0 (by decide) (by push_cast; norm_num)
  have e7 : scaledScore 7 7 7 = 7 := scaledScore_eq _ _ _ 7 (by decide) (by push_cast; norm_num)
  have hval : signalScore bearishBollState DEFAULT_WEIGHTS =
      scaledScore 0 28 28 + scaledScore 3 18 18 + scaledScore 0 12 12
      + scaledScore 0 8 8 + scaledScore 0 12 12 + scaledScore 0 7 7
      + scaledScore 0 8 8 + scaledScore 7 7 7 := rfl
  rw [hval, e0, e1, e2, e3, e5, e7]
  omega

/-- C3 counterexample: a length-8 vector summing to 100 that contains a
negative entry is accepted verbatim by `__init__` (it is not replaced by
`DEFAULT_WEIGHTS`), and the engine then does not behave identically to a
default-constructed engine: the composite score differs (200 vs 10) on a
concrete analysis state. -/
theorem claim_C3_counterexample :
    selectWeights (some [-100, 0, 0, 0, 0, 0, 0, 200]) = [-100, 0, 0, 0, 0, 0, 0, 200] ∧
      ([-100, 0, 0, 0, 0, 0, 0, 200] : List ℤ) ≠ DEFAULT_WEIGHTS ∧
      (generateSignal bearishBollState
          (selectWeights (some [-100, 0, 0, 0, 0, 0, 0, 200]))).1 = 200 ∧
      (generateSignal bearishBollState (selectWeights none)).1 = 10 := by
  have hsel : selectWeights (some [-100, 0, 0, 0, 0, 0, 0, 200]) =
      [-100, 0, 0, 0, 0, 0, 0, 200] := by decide
  refine ⟨hsel, by decide, ?_, ?_⟩
  · rw [hsel]
    exact signalScore_bearishBoll_neg
  · exact signalScore_bearishBoll_default

/-- C3 (amended): a supplied weight configuration is kept exactly when it
has length 8 and sums to 100 — non-negativity is NOT checked — and any
other vector (wrong length or wrong sum) silently falls back to the
default weights, i.e. the engine behaves as if constructed with no
configuration. -/
theorem claim_C3_weight_validation (l : List ℤ) :
    (l.length = 8 ∧ l.sum = 100 → selectWeights (some l) = l) ∧
      (¬(l.length = 8 ∧ l.sum = 100) →
        selectWeights (some l) = selectWeights none) := by
  constructor
  · intro h
    simp [selectWeights, h.1, h.2]
  · intro h
    rw [Decidable.not_and_iff_or_not] at h
    simp only [selectWeights]
    rcases h with h | h
    · simp [h]
    · simp [h]

theorem claim_C3_weight_validation_witness :
    selectWeights (some [10, 10, 10, 10, 10, 10, 10, 30]) =
      [10, 10, 10, 10, 10, 10, 10, 30] :=
  (claim_C3_weight_validation [10, 10, 10, 10, 10, 10, 10, 30]).1
    ⟨by decide, by decide⟩

/-! ## RSI (`_calculate_rsi`)

Pandas semantics made explicit: `delta.where(delta > 0, 0)` replaces the
leading NaN of `diff()` (and non-positive moves) by 0, so the gain/loss
series carry no NaN.  `rolling(period).mean()` is NaN while the window is
incomplete (`i + 1 < period`).  `rs = avg_gain / avg_loss` follows IEEE
float rules: positive/0 = +inf giving `rsi = 100 - 100/(1+inf) = 100`,
and 0/0 = NaN giving NaN, which `fillna(50)` turns into 50. -/

/-- Day-over-day gain at bar `j` (`delta.where(delta > 0, 0)`). -/
def gainAt (c : List ℚ) (j : ℕ) : ℚ :=
  if j = 0 then 0 else max (c.getD j 0 - c.getD (j - 1) 0) 0

/-- Day-over-day loss magnitude at bar `j` (`-delta.where(delta < 0, 0)`). -/
def lossAt (c : List ℚ) (j : ℕ) : ℚ :=
  if j = 0 then 0 else max (c.getD (j - 1) 0 - c.getD j 0) 0

/-- Trailing mean of gains over the window of `p` bars ending at `i`
(meaningful when `p ≤ i + 1`; the rolling mean is NaN before that). -/
def avgGain (c : List ℚ) (p i : ℕ) : ℚ :=
  (((List.range p).map fun k => gainAt c (i - k)).sum) / (p : ℚ)

/-- Trailing mean of losses over the window of `p` bars ending at `i`. -/
def avgLoss (c : List ℚ) (p i : ℕ) : ℚ :=
  (((List.range p).map fun k => lossAt c (i - k)).sum) / (p : ℚ)

/-- The RSI column value at bar `i` for window `p`, with the float edge
cases of `_calculate_rsi` resolved as pandas does: incomplete window →
NaN → `fillna(50)`; `avg_loss = 0` with gains → rs = +inf → 100;
`avg_loss = avg_gain = 0` → NaN → 50. -/
def rsiAt (c : List ℚ) (p i : ℕ) : ℚ :=
  if i + 1 < p then 50
  else if avgLoss c p i = 0 then
    (if avgGain c p i = 0 then 50 else 100)
  else 100 - 100 / (1 + avgGain c p i / avgLoss c p i)

/-- A 20-bar strictly increasing close series. -/
def incCloses20 : List ℚ :=
  [1, 2, 3, 4, 5, 6, 7, 8, 9, 10, 11, 12, 13, 14, 15, 16, 17, 18, 19, 20]

lemma avgLoss_incCloses20 : avgLoss incCloses20 6 19 = 0 := by
  simp [avgLoss, lossAt, incCloses20, List.range_succ, List.getD]
  norm_num [max_def]

lemma avgGain_incCloses20 : avgGain incCloses20 6 19 = 1 := by
  simp [avgGain, gainAt, incCloses20, List.range_succ, List.getD]
  norm_num [max_def]

/-- C4 counterexample: on a 20-bar strictly rising series, the trailing
average loss for the 6-bar window at the last bar is 0, yet the computed
RSI value is 100, not the neutral default 50 (pandas computes
`rs = avg_gain/0 = +inf`, so `rsi = 100`; `fillna(50)` only replaces
NaN). -/
theorem claim_C4_counterexample :
    avgLoss incCloses20 6 19 = 0 ∧ rsiAt incCloses20 6 19 = 100 ∧
      (100 : ℚ) ≠ 50 := by
  refine ⟨avgLoss_incCloses20, ?_, by norm_num⟩
  rw [rsiAt, if_neg (by norm_num), if_pos avgLoss_incCloses20,
    if_neg (by rw [avgGain_incCloses20]; norm_num)]

/-- C4 (amended): at every bar with a complete window where the trailing
average loss is zero, the RSI value is 50 when the average gain is also
zero (the 0/0 NaN case filled with the neutral default) and 100
otherwise (the +inf case); in neither case is an undefined value
propagated. -/
theorem claim_C4_rsi_zero_loss (c : List ℚ) (p i : ℕ)
    (hp : p = 6 ∨ p = 12 ∨ p = 24) (hi : p ≤ i + 1)
    (hl : avgLoss c p i = 0) :
    rsiAt c p i = if avgGain c p i = 0 then 50 else 100 := by
  rw [rsiAt, if_neg (Nat.not_lt.mpr hi), if_pos hl]

theorem claim_C4_rsi_zero_loss_witness :
    rsiAt (List.replicate 7 (1 : ℚ)) 6 6 =
      if avgGain (List.replicate 7 (1 : ℚ)) 6 6 = 0 then 50 else 100 :=
  claim_C4_rsi_zero_loss (List.replicate 7 (1 : ℚ)) 6 6 (Or.inl rfl)
    (by norm_num)
    (by simp [avgLoss, lossAt, List.range_succ, List.getD, List.replicate])

/-! ## MACD state classification (`_analyze_macd`) -/

/-- The classification block of `_analyze_macd`, as a function of the
previous bar's DIF/DEA and the latest bar's DIF/DEA (status plus signal
string). -/
def macdClassify (prevDif prevDea dif dea : ℚ) : MACDStatus × String :=
  if (prevDif - prevDea ≤ 0 ∧ 0 < dif - dea) ∧ 0 < dif then
    (.GOLDEN_CROSS_ZERO, "⭐ 零轴上金叉，强烈买入信号！")
  else if prevDif ≤ 0 ∧ 0 < dif then
    (.CROSSING_UP, "⚡ DIF上穿零轴，趋势转强")
  else if prevDif - prevDea ≤ 0 ∧ 0 < dif - dea then
    (.GOLDEN_CROSS, "✅ 金叉，趋势向上")
  else if 0 ≤ prevDif - prevDea ∧ dif - dea < 0 then
    (.DEATH_CROSS, "❌ 死叉，趋势向下")
  else if 0 ≤ prevDif ∧ dif < 0 then
    (.CROSSING_DOWN, "⚠️ DIF下穿零轴，趋势转弱")
  else if 0 < dif ∧ 0 < dea then
    (.BULLISH, "✓ 多头排列，持续上涨")
  else if dif < 0 ∧ dea < 0 then
    (.BEARISH, "⚠ 空头排列，持续下跌")
  else
    (.BULLISH, " MACD 中性区域")

/-- The MACD state priority chain exactly as the claim words it: golden
cross with DIF at or above zero first, then crossing up, golden cross,
death cross, crossing down, bullish, bearish, otherwise neutral.  The
claimed "neutral" terminal state has no dedicated member of the MACD
status enumeration, so it is rendered as `none`. -/
def macdClaimClassify (prevDif prevDea dif dea : ℚ) : Option MACDStatus :=
  if (prevDif - prevDea ≤ 0 ∧ 0 < dif - dea) ∧ 0 ≤ dif then
    some .GOLDEN_CROSS_ZERO
  else if prevDif ≤ 0 ∧ 0 < dif then some .CROSSING_UP
  else if prevDif - prevDea ≤ 0 ∧ 0 < dif - dea then some .GOLDEN_CROSS
  else if 0 ≤ prevDif - prevDea ∧ dif - dea < 0 then some .DEATH_CROSS
  else if 0 ≤ prevDif ∧ dif < 0 then some .CROSSING_DOWN
  else if 0 < dif ∧ 0 < dea then some .BULLISH
  else if dif < 0 ∧ dea < 0 then some .BEARISH
  else none

/-- The amended MACD priority chain: identical to the claim except that
the top state requires DIF strictly above zero, and the terminal
"neutral" case carries the bullish label (the code reuses
`MACDStatus.BULLISH` with a neutral signal string there). -/
def macdClaimAmended (prevDif prevDea dif dea : ℚ) : MACDStatus :=
  if (prevDif - prevDea ≤ 0 ∧ 0 < dif - dea) ∧ 0 < dif then .GOLDEN_CROSS_ZERO
  else if prevDif ≤ 0 ∧ 0 < dif then .CROSSING_UP
  else if prevDif - prevDea ≤ 0 ∧ 0 < dif - dea then .GOLDEN_CROSS
  else if 0 ≤ prevDif - prevDea ∧ dif - dea < 0 then .DEATH_CROSS
  else if 0 ≤ prevDif ∧ dif < 0 then .CROSSING_DOWN
  else if 0 < dif ∧ 0 < dea then .BULLISH
  else if dif < 0 ∧ dea < 0 then .BEARISH
  else .BULLISH

/-- C5 counterexample: a golden cross with DIF exactly zero (previous
DIF −1, previous DEA 0, latest DIF 0, latest DEA −1).  The claim's "at
or above zero" rule assigns the zero-axis golden cross state, but the
code requires DIF strictly positive and assigns the plain golden cross
state. -/
theorem claim_C5_counterexample :
    macdClaimClassify (-1) 0 0 (-1) = some MACDStatus.GOLDEN_CROSS_ZERO ∧
      (macdClassify (-1) 0 0 (-1)).1 = MACDStatus.GOLDEN_CROSS ∧
      some MACDStatus.GOLDEN_CROSS_ZERO ≠ some MACDStatus.GOLDEN_CROSS := by
  refine ⟨?_, ?_, by decide⟩
  · rw [macdClaimClassify, if_pos (by norm_num)]
  · rw [macdClassify, if_neg (by norm_num), if_neg (by norm_num),
      if_pos (by norm_num)]

/-- C5 (amended): the MACD classifier follows the claimed priority order
with two corrections: the zero-axis golden cross requires DIF strictly
above zero, and the terminal neutral case is labeled with the bullish
status (paired with a neutral signal string). -/
theorem claim_C5_macd_priority (prevDif prevDea dif dea : ℚ) :
    (macdClassify prevDif prevDea dif dea).1 =
      macdClaimAmended prevDif prevDea dif dea := by
  unfold macdClassify macdClaimAmended
  split_ifs <;> rfl

/-! ## Moving averages and trend classification (`_calculate_mas`,
`_analyze_trend`) -/

/-- The trailing window of (at most) `n` closes ending at bar `i`. -/
def window (l : List ℚ) (n i : ℕ) : List ℚ := (l.take (i + 1)).drop (i + 1 - n)

/-- The `rolling(window=n).mean()` at bar `i`: defined (`some`) only when the
window is complete and the bar exists, NaN (`none`) otherwise. -/
def maAt (l : List ℚ) (n i : ℕ) : Option ℚ :=
  if n ≤ i + 1 ∧ i < l.length then some ((window l n i).sum / (n : ℚ)) else none

lemma maAt_eq_some (l : List ℚ) (n i : ℕ) (h1 : n ≤ i + 1) (h2 : i < l.length) :
    maAt l n i = some ((window l n i).sum / (n : ℚ)) := by
  simp [maAt, h1, h2]

/-- Row index of `df.iloc[-5]` in `_analyze_trend` (`df.iloc[-1]` when
fewer than 5 rows exist). -/
def prevIdx (n : ℕ) : ℕ := if 5 ≤ n then n - 5 else n - 1

/-- Latest value of the `n`-bar moving average (`result.ma{n}`); the
analysis only reads it for series of length ≥ 20, where it is defined. -/
def maLastD (c : List ℚ) (n : ℕ) : ℚ := (maAt c n (c.length - 1)).getD 0

/-- Moving average at the `df.iloc[-5]` row. -/
def maPrev (c : List ℚ) (n : ℕ) : Option ℚ := maAt c n (prevIdx c.length)

/-- The `prev_spread` in the bull branch of `_analyze_trend`:
`(prev['MA5'] - prev['MA20']) / prev['MA20'] * 100 if prev['MA20'] > 0
else 0`.  A NaN `prev['MA20']` (window incomplete at that row) fails the
`> 0` comparison, giving 0. -/
def prevSpreadBull (c : List ℚ) : ℚ :=
  match maPrev c 5, maPrev c 20 with
  | some m5, some m20 => if 0 < m20 then (m5 - m20) / m20 * 100 else 0
  | _, _ => 0

/-- The `curr_spread` in the bull branch of `_analyze_trend`. -/
def currSpreadBull (c : List ℚ) : ℚ :=
  if 0 < maLastD c 20 then (maLastD c 5 - maLastD c 20) / maLastD c 20 * 100 else 0

/-- The `prev_spread` in the bear branch of `_analyze_trend` (mirror). -/
def prevSpreadBear (c : List ℚ) : ℚ :=
  match maPrev c 5, maPrev c 20 with
  | some m5, some m20 => if 0 < m5 then (m20 - m5) / m5 * 100 else 0
  | _, _ => 0

/-- The `curr_spread` in the bear branch of `_analyze_trend`. -/
def currSpreadBear (c : List ℚ) : ℚ :=
  if 0 < maLastD c 5 then (maLastD c 20 - maLastD c 5) / maLastD c 5 * 100 else 0

/-- The `_analyze_trend`: the trend status assigned from the latest MA5,
MA10 and MA20 values with the spread-expansion tests. -/
def trendStatusOf (c : List ℚ) : TrendStatus :=
  if maLastD c 10 < maLastD c 5 ∧ maLastD c 20 < maLastD c 10 then
    (if prevSpreadBull c < currSpreadBull c ∧ 5 < currSpreadBull c then
      .STRONG_BULL else .BULL)
  else if maLastD c 10 < maLastD c 5 ∧ maLastD c 10 ≤ maLastD c 20 then .WEAK_BULL
  else if maLastD c 5 < maLastD c 10 ∧ maLastD c 10 < maLastD c 20 then
    (if prevSpreadBear c < currSpreadBear c ∧ 5 < currSpreadBear c then
      .STRONG_BEAR else .BEAR)
  else if maLastD c 5 < maLastD c 10 ∧ maLastD c 20 ≤ maLastD c 10 then .WEAK_BEAR
  else .CONSOLIDATION

/-- C6: when MA5>MA10>MA20 (and the relevant MA values are positive, with
at least 24 bars so that the comparison row `df.iloc[-5]` — the bar 5
positions back from the end — has a complete MA20 window), the trend is
strong bull exactly when the (MA5−MA20)/MA20 percentage spread at that
row is smaller than the latest spread and the latest spread exceeds 5;
otherwise it is bull. -/
theorem claim_C6_strong_bull_rule (c : List ℚ) (h24 : 24 ≤ c.length)
    (hb1 : maLastD c 10 < maLastD c 5) (hb2 : maLastD c 20 < maLastD c 10)
    (h20 : 0 < maLastD c 20) (hp20 : 0 < (maPrev c 20).getD 0) :
    (trendStatusOf c = TrendStatus.STRONG_BULL ↔
        ((maPrev c 5).getD 0 - (maPrev c 20).getD 0) / (maPrev c 20).getD 0 * 100
          < (maLastD c 5 - maLastD c 20) / maLastD c 20 * 100 ∧
        5 < (maLastD c 5 - maLastD c 20) / maLastD c 20 * 100) ∧
      (trendStatusOf c = TrendStatus.STRONG_BULL ∨
        trendStatusOf c = TrendStatus.BULL) := by
  have hpi : prevIdx c.length = c.length - 5 := by
    simp [prevIdx, show 5 ≤ c.length by omega]
  have hm5 : maPrev c 5 = some ((window c 5 (c.length - 5)).sum / (5 : ℚ)) := by
    rw [maPrev, hpi]
    exact maAt_eq_some c 5 (c.length - 5) (by omega) (by omega)
  have hm20 : maPrev c 20 = some ((window c 20 (c.length - 5)).sum / (20 : ℚ)) := by
    rw [maPrev, hpi]
    exact maAt_eq_some c 20 (c.length - 5) (by omega) (by omega)
  have hp20v : 0 < (window c 20 (c.length - 5)).sum / (20 : ℚ) := by
    rw [hm20] at hp20
    simpa using hp20
  have hprev : prevSpreadBull c =
      ((maPrev c 5).getD 0 - (maPrev c 20).getD 0) / (maPrev c 20).getD 0 * 100 := by
    rw [prevSpreadBull, hm5, hm20]
    simp [hp20v, hm5, hm20]
  have hcurr : currSpreadBull c =
      (maLastD c 5 - maLastD c 20) / maLastD c 20 * 100 := by
    rw [currSpreadBull, if_pos h20]
  have htrend : trendStatusOf c =
      if prevSpreadBull c < currSpreadBull c ∧ 5 < currSpreadBull c then
        TrendStatus.STRONG_BULL else TrendStatus.BULL := by
    rw [trendStatusOf, if_pos ⟨hb1, hb2⟩]
  rw [htrend, ← hprev, ← hcurr]
  by_cases hcond : prevSpreadBull c < currSpreadBull c ∧ 5 < currSpreadBull c
  · rw [if_pos hcond]
    exact ⟨⟨fun _ => hcond, fun _ => rfl⟩, Or.inl rfl⟩
  · rw [if_neg hcond]
    exact ⟨⟨fun h => absurd h (by decide), fun h => absurd h hcond⟩, Or.inr rfl⟩

/-- A 24-bar strictly increasing close series. -/
def incCloses24 : List ℚ :=
  [1, 2, 3, 4, 5, 6, 7, 8, 9, 10, 11, 12, 13, 14, 15, 16, 17, 18, 19, 20,
   21, 22, 23, 24]

lemma incCloses24_ma5 : maLastD incCloses24 5 = 22 := by
  simp [maLastD, maAt, incCloses24, window]
  norm_num

lemma incCloses24_ma10 : maLastD incCloses24 10 = 39/2 := by
  simp [maLastD, maAt, incCloses24, window]
  norm_num

lemma incCloses24_ma20 : maLastD incCloses24 20 = 29/2 := by
  simp [maLastD, maAt, incCloses24, window]
  norm_num

lemma incCloses24_prevMa20 : (maPrev incCloses24 20).getD 0 = 21/2 := by
  simp [maPrev, prevIdx, maAt, incCloses24, window]
  norm_num

theorem claim_C6_strong_bull_rule_witness :
    (trendStatusOf incCloses24 = TrendStatus.STRONG_BULL ↔
        ((maPrev incCloses24 5).getD 0 - (maPrev incCloses24 20).getD 0)
            / (maPrev incCloses24 20).getD 0 * 100
          < (maLastD incCloses24 5 - maLastD incCloses24 20)
            / maLastD incCloses24 20 * 100 ∧
        5 < (maLastD incCloses24 5 - maLastD incCloses24 20)
            / maLastD incCloses24 20 * 100) ∧
      (trendStatusOf incCloses24 = TrendStatus.STRONG_BULL ∨
        trendStatusOf incCloses24 = TrendStatus.BULL) :=
  claim_C6_strong_bull_rule incCloses24 (by decide)
    (by rw [incCloses24_ma10, incCloses24_ma5]; norm_num)
    (by rw [incCloses24_ma20, incCloses24_ma10]; norm_num)
    (by rw [incCloses24_ma20]; norm_num)
    (by rw [incCloses24_prevMa20]; norm_num)

/-! ## Bollinger band state classification (`_analyze_boll`) -/

/-- The classification block of `_analyze_boll` (`tol = 0.02`), as a
function of the latest price and the latest upper/mid/lower band
values. -/
def bollClassify (price upper mid lower : ℚ) : BOLLStatus :=
  if upper * (1 - 2/100) ≤ price then .UPPER_BREAK
  else if price ≤ lower * (1 + 2/100) then .LOWER_BREAK
  else if upper * (1 - 4/100) ≤ price then .UPPER_NEAR
  else if price ≤ lower * (1 + 4/100) then .LOWER_NEAR
  else if mid ≤ price ∧ price < upper then .MID_SUPPORT
  else if price < mid ∧ lower < price then .MID_RESISTANCE
  else .NORMAL

/-- The Bollinger priority order exactly as the claim words it:
breaking upper, near upper, breaking lower, near lower, above-mid,
below-mid, normal — with the same 2%/4% tolerances. -/
def bollClaimClassify (price upper mid lower : ℚ) : BOLLStatus :=
  if upper * (1 - 2/100) ≤ price then .UPPER_BREAK
  else if upper * (1 - 4/100) ≤ price then .UPPER_NEAR
  else if price ≤ lower * (1 + 2/100) then .LOWER_BREAK
  else if price ≤ lower * (1 + 4/100) then .LOWER_NEAR
  else if mid ≤ price ∧ price < upper then .MID_SUPPORT
  else if price < mid ∧ lower < price then .MID_RESISTANCE
  else .NORMAL

/-- The amended priority order, as the code checks it: breaking upper,
breaking lower, near upper, near lower, above-mid, below-mid, normal. -/
def bollClaimAmended (price upper mid lower : ℚ) : BOLLStatus :=
  if upper * (1 - 2/100) ≤ price then .UPPER_BREAK
  else if price ≤ lower * (1 + 2/100) then .LOWER_BREAK
  else if upper * (1 - 4/100) ≤ price then .UPPER_NEAR
  else if price ≤ lower * (1 + 4/100) then .LOWER_NEAR
  else if mid ≤ price ∧ price < upper then .MID_SUPPORT
  else if price < mid ∧ lower < price then .MID_RESISTANCE
  else .NORMAL

/-- C7 counterexample: with a narrow band (price 98, upper 100.8, mid
99.9, lower 99) the claim's order yields "near upper" while the code —
which tests "breaking lower" second — yields "breaking lower". -/
theorem claim_C7_counterexample :
    bollClaimClassify 98 (504/5) (999/10) 99 = BOLLStatus.UPPER_NEAR ∧
      bollClassify 98 (504/5) (999/10) 99 = BOLLStatus.LOWER_BREAK ∧
      BOLLStatus.UPPER_NEAR ≠ BOLLStatus.LOWER_BREAK := by
  refine ⟨?_, ?_, by decide⟩
  · rw [bollClaimClassify, if_neg (by norm_num), if_pos (by norm_num)]
  · rw [bollClassify, if_neg (by norm_num), if_pos (by norm_num)]

/-- C7 (amended): the Bollinger classifier checks its conditions with
the 2%/4% tolerances in the order: breaking upper, breaking lower, near
upper, near lower, above-mid (support), below-mid (resistance),
normal. -/
theorem claim_C7_boll_priority (price upper mid lower : ℚ) :
    bollClassify price upper mid lower = bollClaimAmended price upper mid lower :=
  rfl

/-! ## MACD pipeline (`_calculate_macd`) and skipped-indicator handling -/

/-- Tail of `ewm(adjust=False).mean()`: each output is
`(1 - α) * prev + α * x`. -/
def ewmaFrom (α : ℚ) (prev : ℚ) : List ℚ → List ℚ
  | [] => []
  | x :: xs => ((1 - α) * prev + α * x) :: ewmaFrom α ((1 - α) * prev + α * x) xs

/-- The `ewm(span=s, adjust=False).mean()` with `α = 2/(s+1)`, seeded at the
first element. -/
def ewma (α : ℚ) : List ℚ → List ℚ
  | [] => []
  | x :: xs => x :: ewmaFrom α x xs

/-- The `MACD_DIF = EMA(close, 12) - EMA(close, 26)` (spans 12 and 26 give
`α = 2/13` and `α = 2/27`). -/
def difList (c : List ℚ) : List ℚ :=
  List.zipWith (fun a b => a - b) (ewma (2/13) c) (ewma (2/27) c)

/-- The `MACD_DEA = EMA(MACD_DIF, 9)` (span 9 gives `α = 2/10`). -/
def deaList (c : List ℚ) : List ℚ := ewma (2/10) (difList c)

/-- The `_analyze_macd`: with fewer than `MACD_SLOW = 26` bars the
classifier is skipped, the signal string is set to the insufficient-data
message and the status keeps the dataclass default
`MACDStatus.BULLISH`; otherwise the latest and previous DIF/DEA values
are classified. -/
def analyzeMacd (c : List ℚ) : MACDStatus × String :=
  if c.length < 26 then (MACDStatus.BULLISH, "数据不足")
  else
    macdClassify ((difList c).getD (c.length - 2) 0)
      ((deaList c).getD (c.length - 2) 0)
      ((difList c).getD (c.length - 1) 0)
      ((deaList c).getD (c.length - 1) 0)

/-- The `_analyze_rsi`: with fewer than `RSI_LONG = 24` bars the classifier
is skipped, the signal string is set to the insufficient-data message
and the status keeps the dataclass default `RSIStatus.NEUTRAL`;
otherwise RSI(12) at the latest bar is classified. -/
def analyzeRsi (c : List ℚ) : RSIStatus × String :=
  if c.length < 24 then (RSIStatus.NEUTRAL, "数据不足")
  else
    if 70 < rsiAt c 12 (c.length - 1) then (.OVERBOUGHT, "⚠️ RSI超买，短期回调风险高")
    else if 60 < rsiAt c 12 (c.length - 1) then (.STRONG_BUY, "✅ RSI强势，多头力量充足")
    else if 40 ≤ rsiAt c 12 (c.length - 1) then (.NEUTRAL, " RSI中性，震荡整理中")
    else if 30 ≤ rsiAt c 12 (c.length - 1) then (.WEAK, "⚡ RSI弱势，关注反弹")
    else (.OVERSOLD, "⭐ RSI超卖，反弹机会大")

/-- C8 counterexample: for a 20-bar series the MACD classifier is
skipped, but the label left behind is `MACDStatus.BULLISH` — the
enumeration has no neutral member and the dataclass default is the
bullish label — and aggregation then uses the table entry 6 for
`BULLISH`, not the score table's `.get` fallback entry 5. -/
theorem claim_C8_counterexample :
    analyzeMacd incCloses20 = (MACDStatus.BULLISH, "数据不足") ∧
      macdScores MACDStatus.BULLISH = 6 ∧
      macdScores MACDStatus.BULLISH ≠ macdGetDefault := by
  refine ⟨?_, by decide, by decide⟩
  rw [analyzeMacd, if_pos (by decide)]

/-- C8 (amended): for a series below MACD's 26-bar window the MACD
classifier is skipped — its signal string is the insufficient-data
message, its label remains the dataclass default `BULLISH`, and
aggregation proceeds with that label's raw table entry 6; likewise below
RSI's 24-bar window the RSI classifier is skipped with its default label
`NEUTRAL`, whose raw table entry is 4. -/
theorem claim_C8_insufficient_data (c : List ℚ) (h26 : c.length < 26) :
    analyzeMacd c = (MACDStatus.BULLISH, "数据不足") ∧
      macdScores MACDStatus.BULLISH = 6 ∧
      (c.length < 24 →
        analyzeRsi c = (RSIStatus.NEUTRAL, "数据不足") ∧
          rsiScores RSIStatus.NEUTRAL = 4) := by
  refine ⟨?_, rfl, fun h24 => ⟨?_, rfl⟩⟩
  · rw [analyzeMacd, if_pos h26]
  · rw [analyzeRsi, if_pos h24]

theorem claim_C8_insufficient_data_witness :
    analyzeMacd incCloses20 = (MACDStatus.BULLISH, "数据不足") ∧
      macdScores MACDStatus.BULLISH = 6 ∧
      (incCloses20.length < 24 →
        analyzeRsi incCloses20 = (RSIStatus.NEUTRAL, "数据不足") ∧
          rsiScores RSIStatus.NEUTRAL = 4) :=
  claim_C8_insufficient_data incCloses20 (by decide)

/-! ## Volume analysis (`_analyze_volume`), bias (`_calculate_bias`),
Bollinger width (`_calculate_boll`) and Bollinger position -/

lemma getD_replicate_of_lt (n i : ℕ) (x d : ℚ) (h : i < n) :
    (List.replicate n x).getD i d = x := by
  induction n generalizing i with
  | zero => omega
  | succ n ih =>
    cases i with
    | zero => rfl
    | succ i =>
      simpa [List.replicate_succ, List.getD_cons_succ] using ih i (by omega)

/-- The volume slice `iloc[-6:-1]` of the volume column: the five volumes preceding the latest
bar (pandas clips the slice for very short series). -/
def vol5window (closes volumes : List ℚ) : List ℚ :=
  (volumes.take (closes.length - 1)).drop (closes.length - 6)

/-- The `vol_5d_avg` in `_analyze_volume`. -/
def vol5avg (closes volumes : List ℚ) : ℚ :=
  (vol5window closes volumes).sum / ((vol5window closes volumes).length : ℚ)

/-- The `volume_ratio_5d`: set only when the 5-day average volume is
positive; otherwise the dataclass default 0.0 is kept. -/
def volRatio (closes volumes : List ℚ) : ℚ :=
  if 0 < vol5avg closes volumes then
    volumes.getD (closes.length - 1) 0 / vol5avg closes volumes
  else 0

/-- The `price_change` in `_analyze_volume` (percentage versus the previous
close). -/
def priceChange (closes : List ℚ) : ℚ :=
  (closes.getD (closes.length - 1) 0 - closes.getD (closes.length - 2) 0)
    / closes.getD (closes.length - 2) 0 * 100

/-- The `_analyze_volume`: with fewer than 5 bars it returns early leaving
the defaults (`NORMAL`, ratio 0); otherwise the ratio thresholds 1.5 and
0.7 combine with the sign of the price change. -/
def analyzeVolume (closes volumes : List ℚ) : VolumeStatus × ℚ :=
  if closes.length < 5 then (.NORMAL, 0)
  else if 3/2 ≤ volRatio closes volumes then
    (if 0 < priceChange closes then (.HEAVY_VOLUME_UP, volRatio closes volumes)
     else (.HEAVY_VOLUME_DOWN, volRatio closes volumes))
  else if volRatio closes volumes ≤ 7/10 then
    (if 0 < priceChange closes then (.SHRINK_VOLUME_UP, volRatio closes volumes)
     else (.SHRINK_VOLUME_DOWN, volRatio closes volumes))
  else (.NORMAL, volRatio closes volumes)

/-- The `_calculate_bias` for one moving average: the field keeps its
default 0.0 unless the moving average is positive. -/
def biasOf (price ma : ℚ) : ℚ := if 0 < ma then (price - ma) / ma * 100 else 0

/-- The 20-bar sample variance (`rolling(20).std()` squared, `ddof = 1`) of
the trailing window at the latest bar.  The code's band width is
`4 * sqrt` of this value, so the width is zero iff this is zero. -/
def sampleVar (l : List ℚ) : ℚ :=
  ((l.map fun x => (x - l.sum / (l.length : ℚ)) * (x - l.sum / (l.length : ℚ))).sum)
    / ((l.length : ℚ) - 1)

/-- Sample variance of the latest 20-bar Bollinger window. -/
def bollVarLast (c : List ℚ) : ℚ := sampleVar (window c 20 (c.length - 1))

/-- The `boll_position` assignment in `_analyze_boll`: computed and clamped
to [−1, 1] only when the band width is positive; otherwise the dataclass
default 0.0 is kept. -/
def bollPositionOf (price mid width : ℚ) : ℚ :=
  if 0 < width then max (-1) (min 1 ((price - mid) / (width / 2))) else 0

lemma vol5window_replicate (c v : ℚ) :
    vol5window (List.replicate 20 c) (List.replicate 20 v) = List.replicate 5 v := by
  rw [vol5window, List.length_replicate, List.take_replicate, List.drop_replicate]
  norm_num

lemma vol5avg_replicate (c v : ℚ) :
    vol5avg (List.replicate 20 c) (List.replicate 20 v) = v := by
  rw [vol5avg, vol5window_replicate, List.sum_replicate, List.length_replicate,
    nsmul_eq_mul]
  norm_num

lemma priceChange_replicate (c : ℚ) :
    priceChange (List.replicate 20 c) = 0 := by
  rw [priceChange, List.length_replicate,
    getD_replicate_of_lt 20 (20 - 1) c 0 (by omega),
    getD_replicate_of_lt 20 (20 - 2) c 0 (by omega)]
  simp

lemma volRatio_replicate (c v : ℚ) :
    volRatio (List.replicate 20 c) (List.replicate 20 v) =
      if 0 < v then 1 else 0 := by
  rw [volRatio, vol5avg_replicate]
  by_cases h : 0 < v
  · rw [if_pos h, if_pos h, List.length_replicate,
      getD_replicate_of_lt 20 (20 - 1) v 0 (by omega)]
    exact div_self (ne_of_gt h)
  · rw [if_neg h, if_neg h]

/-- The volume classification on 20 identical bars: `NORMAL` when the
shared volume is positive (ratio 1), `SHRINK_VOLUME_DOWN` when it is
zero (the ratio keeps its default 0, which passes the shrink threshold,
and the price change is 0, not positive). -/
lemma analyzeVolume_replicate (c v : ℚ) :
    (analyzeVolume (List.replicate 20 c) (List.replicate 20 v)).1 =
      if 0 < v then VolumeStatus.NORMAL else VolumeStatus.SHRINK_VOLUME_DOWN := by
  rw [analyzeVolume, if_neg (by simp), volRatio_replicate, priceChange_replicate]
  by_cases h : 0 < v
  · rw [if_pos h, if_pos h, if_neg (by norm_num), if_neg (by norm_num)]
  · rw [if_neg h, if_neg h, if_neg (by norm_num), if_pos (by norm_num),
      if_neg (by norm_num)]

lemma maLastD_replicate (k : ℕ) (x : ℚ) (hk1 : k ≤ 20) (hk0 : k ≠ 0) :
    maLastD (List.replicate 20 x) k = x := by
  rw [maLastD, List.length_replicate,
    maAt_eq_some _ _ _ (by omega) (by simp), Option.getD_some, window,
    List.take_replicate, List.drop_replicate]
  rw [show (19 + 1) ⊓ 20 = 20 by norm_num, show 20 - (19 + 1 - k) = k by omega,
    List.sum_replicate, nsmul_eq_mul]
  exact mul_div_cancel_left₀ x (Nat.cast_ne_zero.mpr hk0)

lemma bollVarLast_replicate (x : ℚ) :
    bollVarLast (List.replicate 20 x) = 0 := by
  rw [bollVarLast, List.length_replicate, window, List.take_replicate,
    List.drop_replicate]
  rw [show (19 + 1) ⊓ 20 = 20 by norm_num, show 20 - (19 + 1 - 20) = 20 by norm_num]
  rw [sampleVar, List.sum_replicate, List.length_replicate, List.map_replicate,
    nsmul_eq_mul]
  norm_num

/-- C9 counterexample: 20 identical bars with volume 0 (certainly a
flat, zero-volume-variance market).  The 5-day average volume is 0, so
the ratio keeps its default 0, which satisfies the shrink threshold, and
the classifier reports `SHRINK_VOLUME_DOWN` — not "normal" and not the
default. -/
theorem claim_C9_counterexample :
    (analyzeVolume (List.replicate 20 (10 : ℚ)) (List.replicate 20 (0 : ℚ))).1 =
        VolumeStatus.SHRINK_VOLUME_DOWN ∧
      VolumeStatus.SHRINK_VOLUME_DOWN ≠ VolumeStatus.NORMAL := by
  refine ⟨?_, by decide⟩
  rw [analyzeVolume_replicate, if_neg (by norm_num)]

/-- C9 (amended): for 20 identical OHLCV bars with positive close, the
analysis is total (no exception): the volume classifier yields normal
when the shared volume is positive and shrink-volume-down when it is
zero; MA5 = MA10 = MA20 = close; all three bias values are 0; the
Bollinger window variance is 0 — hence the band width `4·sqrt(var)` is
0 — and the position keeps its default 0. -/
theorem claim_C9_flat_market (c v : ℚ) (hc : 0 < c) (hv : 0 ≤ v) :
    (analyzeVolume (List.replicate 20 c) (List.replicate 20 v)).1 =
        (if 0 < v then VolumeStatus.NORMAL else VolumeStatus.SHRINK_VOLUME_DOWN) ∧
      maLastD (List.replicate 20 c) 5 = c ∧
      maLastD (List.replicate 20 c) 10 = c ∧
      maLastD (List.replicate 20 c) 20 = c ∧
      biasOf c (maLastD (List.replicate 20 c) 5) = 0 ∧
      biasOf c (maLastD (List.replicate 20 c) 10) = 0 ∧
      biasOf c (maLastD (List.replicate 20 c) 20) = 0 ∧
      bollVarLast (List.replicate 20 c) = 0 ∧
      bollPositionOf c c 0 = 0 := by
  have h5 := maLastD_replicate 5 c (by norm_num) (by norm_num)
  have h10 := maLastD_replicate 10 c (by norm_num) (by norm_num)
  have h20 := maLastD_replicate 20 c (by norm_num) (by norm_num)
  refine ⟨analyzeVolume_replicate c v, h5, h10, h20, ?_, ?_, ?_, bollVarLast_replicate c, ?_⟩
  · rw [h5]; simp [biasOf]
  · rw [h10]; simp [biasOf]
  · rw [h20]; simp [biasOf]
  · simp [bollPositionOf]

theorem claim_C9_flat_market_witness :
    (analyzeVolume (List.replicate 20 (10 : ℚ)) (List.replicate 20 (1000 : ℚ))).1 =
        (if 0 < (1000 : ℚ) then VolumeStatus.NORMAL else VolumeStatus.SHRINK_VOLUME_DOWN) ∧
      maLastD (List.replicate 20 (10 : ℚ)) 5 = 10 ∧
      maLastD (List.replicate 20 (10 : ℚ)) 10 = 10 ∧
      maLastD (List.replicate 20 (10 : ℚ)) 20 = 10 ∧
      biasOf 10 (maLastD (List.replicate 20 (10 : ℚ)) 5) = 0 ∧
      biasOf 10 (maLastD (List.replicate 20 (10 : ℚ)) 10) = 0 ∧
      biasOf 10 (maLastD (List.replicate 20 (10 : ℚ)) 20) = 0 ∧
      bollVarLast (List.replicate 20 (10 : ℚ)) = 0 ∧
      bollPositionOf 10 10 0 = 0 :=
  claim_C9_flat_market 10 1000 (by norm_num) (by norm_num)

/-! ## Support and resistance (`_analyze_support_resistance`) -/

/-- Output fields of `_analyze_support_resistance`. -/
structure SupportResistance where
  support_ma5 : Bool
  support_ma10 : Bool
  support_levels : List ℚ
  resistance_levels : List ℚ
  deriving DecidableEq, Repr

/-- The `_analyze_support_resistance`: MA5 support is appended when price is
within 2% of a positive MA5 and not below it; MA10 likewise but appended
only if an equal value is not already present; MA20 is appended
unconditionally whenever price ≥ MA20 > 0; the 20-bar trailing high is
recorded as resistance when above the price. -/
def analyzeSupportResistance (price ma5 ma10 ma20 : ℚ) (highs : List ℚ) :
    SupportResistance :=
  let L1 : List ℚ :=
    if 0 < ma5 ∧ |price - ma5| / ma5 ≤ 2/100 ∧ ma5 ≤ price then [ma5] else []
  let L2 : List ℚ :=
    if 0 < ma10 ∧ |price - ma10| / ma10 ≤ 2/100 ∧ ma10 ≤ price then
      (if ma10 ∈ L1 then L1 else L1 ++ [ma10])
    else L1
  let L3 : List ℚ := if 0 < ma20 ∧ ma20 ≤ price then L2 ++ [ma20] else L2
  { support_ma5 := decide (0 < ma5 ∧ |price - ma5| / ma5 ≤ 2/100 ∧ ma5 ≤ price)
    support_ma10 := decide (0 < ma10 ∧ |price - ma10| / ma10 ≤ 2/100 ∧ ma10 ≤ price)
    support_levels := L3
    resistance_levels :=
      if 20 ≤ highs.length ∧
          price < ((highs.drop (highs.length - 20)).max?).getD 0 then
        [((highs.drop (highs.length - 20)).max?).getD 0]
      else [] }

/-- C10: with a constant positive close (MA5 = MA10 = MA20 = price), the
price qualifies as MA5 support, the equal MA10 level is skipped by the
membership check, but the MA20 level is appended unconditionally — so
the returned support list contains the same numeric level twice. -/
theorem claim_C10_duplicate_support (c : ℚ) (hc : 0 < c) :
    (analyzeSupportResistance c c c c []).support_ma5 = true ∧
      (analyzeSupportResistance c c c c []).support_ma10 = true ∧
      (analyzeSupportResistance c c c c []).support_levels = [c, c] ∧
      ((analyzeSupportResistance c c c c []).support_levels).count c = 2 := by
  have h2 : (0 : ℚ) ≤ 2/100 := by norm_num
  have hcond : 0 < c ∧ |c - c| / c ≤ 2/100 ∧ c ≤ c :=
    ⟨hc, by simpa using h2, le_refl c⟩
  refine ⟨by simp [analyzeSupportResistance, hcond, h2],
    by simp [analyzeSupportResistance, hcond, h2], ?_, ?_⟩
  · simp [analyzeSupportResistance, hcond, hc, h2]
  · simp [analyzeSupportResistance, hcond, hc, h2]

theorem claim_C10_duplicate_support_witness :
    (analyzeSupportResistance 10 10 10 10 []).support_ma5 = true ∧
      (analyzeSupportResistance 10 10 10 10 []).support_ma10 = true ∧
      (analyzeSupportResistance 10 10 10 10 []).support_levels = [10, 10] ∧
      ((analyzeSupportResistance 10 10 10 10 []).support_levels).count 10 = 2 :=
  claim_C10_duplicate_support 10 (by norm_num)
